import Mathlib

/-!
Verification of the retrieval pipeline of `src/wandbot/chat/retriever.py`:
the hybrid (BM25 + vector + web) fusion retriever, the metadata (tag) and
language postprocessors, and the `Retriever` session object.

External collaborators (the BM25 index, the vector index, the you.com web
search API and the Cohere reranking service) are modelled by their
request/response data: each retrieval function takes the collaborator's
response as an explicit argument and computes exactly what the Python code
computes from it.

Scores are `Float` values in the source; no arithmetic is ever performed on
them in this module (they are only stored and copied), so they are modelled
as integers (`1.0` becomes `1`).
-/

namespace Wandbot

/-- Metadata dictionary attached to a node, with the keys this module reads
or writes (`language`, `tags`, `source`, `title`, `description`). -/
structure Metadata where
  language : String
  tags : List String
  source : String := ""
  title : String := ""
  description : String := ""
deriving Repr, DecidableEq, Inhabited

/-- `llama_index.schema.TextNode`, restricted to the fields this module
uses: the stable node id, the text and the metadata. -/
structure TextNode where
  node_id : String
  text : String
  metadata : Metadata
deriving Repr, DecidableEq, Inhabited

/-- `llama_index.schema.NodeWithScore`: a node together with its
source-local relevance score. -/
structure NodeWithScore where
  node : TextNode
  score : Int
deriving Repr, DecidableEq, Inhabited

/-- The node identity used for deduplication: `n.node.node_id`. -/
def nodeId (n : NodeWithScore) : String :=
  n.node.node_id

/-- Python truthiness of an optional list (`if not self.include_tags`):
`None` and the empty list are both falsy. -/
def truthyList : Option (List String) → Bool
  | none => false
  | some l => !l.isEmpty

/-- Python truthiness of an optional bool (`bool(x)` for
`x : bool | None`). -/
def pyTruthy : Option Bool → Bool
  | none => false
  | some b => b

/-- Python `a or default` for an optional int argument: `None` and `0` are
falsy and fall back to the default (`top_k = top_k or self.config.top_k`). -/
def pyOrNat : Option Nat → Nat → Nat
  | none, d => d
  | some k, d => if k == 0 then d else k

/-- Python `a or default` for an optional string argument: `None` and `""`
are falsy (`language = language or self.config.language`). -/
def pyOrStr : Option String → String → String
  | none, d => d
  | some s, d => if s == "" then d else s

/-- Python `str.lower()`: lowercase every character. (Implemented over the
character list so that it reduces inside the kernel.) -/
def pyLower (s : String) : String :=
  String.mk (s.data.map Char.toLower)

/-- Python `str.strip()`: drop leading and trailing whitespace.
(Implemented over the character list so that it reduces inside the
kernel.) -/
def pyStrip (s : String) : String :=
  String.mk
    (((s.data.dropWhile Char.isWhitespace).reverse.dropWhile
        Char.isWhitespace).reverse)

/-- `tag.lower().strip()`: the normalization applied to every tag before
comparison in `MetadataPostprocessor._postprocess_nodes`. -/
def normalizeTag (tag : String) : String :=
  pyStrip (pyLower tag)

/-- `set(a).issubset(set(b))` on lists of strings: every element of `a`
occurs in `b`. -/
def pySubset (a b : List String) : Bool :=
  a.all fun x => b.contains x

/-- Modelled from the spec: `create_no_result_dummy_node` is imported from
`wandbot.utils`, which is not among the provided sources. The spec
describes it as a well-known placeholder Candidate that carries no real
content and bears a reserved marker in its metadata so downstream
consumers can recognize it. -/
def create_no_result_dummy_node : NodeWithScore :=
  { node :=
      { node_id := "no_result"
        text := "No results found."
        metadata :=
          { language := ""
            tags := ["no_result"]
            source := "no_result"
            title := "no_result"
            description := "no_result" } }
    score := 0 }

/-- `LanguageFilterPostprocessor`: language-based node postprocessor. -/
structure LanguageFilterPostprocessor where
  languages : List String := ["en", "python"]
  min_result_size : Nat := 10
deriving Repr, DecidableEq

/-- `LanguageFilterPostprocessor._postprocess_nodes`: keep the nodes whose
`metadata["language"]` is in `languages`; if fewer than `min_result_size`
remain, append the first `min_result_size - len(new_nodes)` nodes of the
original input list. -/
def LanguageFilterPostprocessor.postprocess_nodes
    (self : LanguageFilterPostprocessor) (nodes : List NodeWithScore) :
    List NodeWithScore :=
  let new_nodes := nodes.filter fun node =>
    self.languages.contains node.node.metadata.language
  if new_nodes.length < self.min_result_size then
    new_nodes ++ nodes.take (self.min_result_size - new_nodes.length)
  else
    new_nodes

/-- `MetadataPostprocessor`: metadata (tag) based node postprocessor. -/
structure MetadataPostprocessor where
  min_result_size : Nat := 10
  include_tags : Option (List String) := none
  exclude_tags : Option (List String) := none
deriving Repr, DecidableEq

/-- The per-node retention test of the loop body of
`MetadataPostprocessor._postprocess_nodes`: with normalized tags, a node is
skipped (`continue`) when `include_tags` is truthy and not a subset of the
node's tags, or when `exclude_tags` is truthy and a subset of the node's
tags. -/
def MetadataPostprocessor.keepNode (self : MetadataPostprocessor)
    (node : NodeWithScore) : Bool :=
  let normalized_tags := node.node.metadata.tags.map normalizeTag
  (!truthyList self.include_tags ||
    pySubset ((self.include_tags.getD []).map normalizeTag) normalized_tags) &&
  (!truthyList self.exclude_tags ||
    !pySubset ((self.exclude_tags.getD []).map normalizeTag) normalized_tags)

/-- `MetadataPostprocessor._postprocess_nodes`: passthrough when both tag
lists are falsy; otherwise filter by `keepNode` and, if fewer than
`min_result_size` nodes survive, extend with copies of the no-result dummy
node up to `min_result_size`. -/
def MetadataPostprocessor.postprocess_nodes (self : MetadataPostprocessor)
    (nodes : List NodeWithScore) : List NodeWithScore :=
  if !truthyList self.include_tags && !truthyList self.exclude_tags then
    nodes
  else
    let new_nodes := nodes.filter self.keepNode
    if new_nodes.length < self.min_result_size then
      new_nodes ++
        List.replicate (self.min_result_size - new_nodes.length)
          create_no_result_dummy_node
    else
      new_nodes

/-- One hit of the you.com search response:
`{url, title, description, snippets}`. -/
structure WebHit where
  url : String
  title : String
  description : String
  snippets : List String
deriving Repr, DecidableEq, Inhabited

/-- The outcome of the HTTP call made by `YouRetriever._retrieve`:
either a response with a status code and a payload (`none` when the JSON
body cannot be parsed into a `hits` list, which raises in the Python code),
or a raised network exception. -/
inductive WebResponse where
  | response (status_code : Nat) (payload : Option (List WebHit))
  | exn
deriving Repr, DecidableEq

/-- A web call outcome that the `try/except` of `YouRetriever._retrieve`
turns into an empty result: a raised exception, a non-200 status, or a
malformed payload. -/
def WebResponse.isFailure : WebResponse → Bool
  | .exn => true
  | .response status_code payload => status_code != 200 || payload.isNone

/-- `YouRetriever.__init__`: the stored `similarity_top_k` (sent to the API
as `num_web_results`) is `similarity_top_k if similarity_top_k <= 20 else
20`. -/
def YouRetriever.cappedTopK (similarity_top_k : Nat) : Nat :=
  if similarity_top_k ≤ 20 then similarity_top_k else 20

/-- The node id assigned to a web snippet node. In the source,
`TextNode(text=..., metadata=...)` draws a fresh random id; it is modelled
here as a deterministic function of the hit and the snippet. -/
def youNodeId (hit : WebHit) (snippet : String) : String :=
  "you:" ++ hit.url ++ ":" ++ snippet

/-- `YouRetriever._retrieve`, as a function of the web collaborator's
response: on any failure return `[]`; on success, one `NodeWithScore` with
score `1.0` per snippet of each hit, in hit order then snippet order,
carrying the hit's url/description/title, tags `["you.com"]` and language
`"en"`. -/
def YouRetriever.retrieveFromResponse : WebResponse → List NodeWithScore
  | .exn => []
  | .response status_code payload =>
    if status_code != 200 then []
    else
      match payload with
      | none => []
      | some hits =>
        (hits.map fun hit =>
          hit.snippets.map fun snippet =>
            { node :=
                { node_id := youNodeId hit snippet
                  text := snippet
                  metadata :=
                    { language := "en"
                      tags := ["you.com"]
                      source := hit.url
                      title := hit.title
                      description := hit.description } }
              score := 1 }).flatten

/-- The deduplication loop of `HybridRetriever._retrieve`: walk the
concatenated node list, keeping a node only when its `node_id` has not been
seen, and recording each admitted id. -/
def fuseLoop : List NodeWithScore → List String → List NodeWithScore
  | [], _ => []
  | n :: rest, node_ids =>
    if nodeId n ∈ node_ids then
      fuseLoop rest node_ids
    else
      n :: fuseLoop rest (nodeId n :: node_ids)

/-- The fusion step of `HybridRetriever._retrieve`: concatenate the BM25,
vector and you.com node lists in that order and deduplicate by node id,
first occurrence wins. -/
def HybridRetriever.fuse (bm25_nodes vector_nodes you_nodes : List NodeWithScore) :
    List NodeWithScore :=
  fuseLoop (bm25_nodes ++ vector_nodes ++ you_nodes) []

/-- `HybridRetriever._retrieve` as a function of the three collaborator
results: the you.com retriever is consulted only when `is_avoid_query` is
false, otherwise its contribution is `[]`. -/
def HybridRetriever.retrieveNodes (bm25_nodes vector_nodes : List NodeWithScore)
    (web : WebResponse) (is_avoid_query : Bool) : List NodeWithScore :=
  let you_nodes :=
    if !is_avoid_query then YouRetriever.retrieveFromResponse web else []
  HybridRetriever.fuse bm25_nodes vector_nodes you_nodes

/-- The results handed to one `Retriever.retrieve` call by the three source
collaborators: the BM25 retriever's nodes, the vector retriever's nodes and
the raw web response. -/
structure SourceResults where
  bm25 : List NodeWithScore
  vector : List NodeWithScore
  web : WebResponse
deriving Repr, DecidableEq

/-- The Cohere reranking collaborator: given the model name, `top_n` and
the candidate nodes, it returns the reranked top nodes or fails
(`CohereRerank` has no soft-fail path, so a service failure propagates). -/
def RerankService : Type :=
  String → Nat → List NodeWithScore → Except String (List NodeWithScore)

/-- The output projection of `Retriever.retrieve`:
`{"text": ..., "metadata": ..., "score": ...}`. -/
structure OutputDict where
  text : String
  metadata : Metadata
  score : Int
deriving Repr, DecidableEq

/-- The mutable/session part of the `Retriever` object: the one-shot
`is_avoid_query` flag, plus the configured defaults `config.top_k` and
`config.language`. -/
structure RetrieverState where
  is_avoid_query : Option Bool
  top_k : Nat := 10
  language : String := "en"
deriving Repr, DecidableEq

/-- The node-postprocessor chain built by `Retriever.load_query_engine` and
applied by `WandbRetrieverQueryEngine.retrieve`: the tag filter, then the
language filter with languages `[language, "python"]`, then the Cohere
rerank with model `rerank-english-v2.0` for English and
`rerank-multilingual-v2.0` otherwise. -/
def applyNodePostprocessors (top_k : Nat) (language : String)
    (include_tags exclude_tags : Option (List String)) (rerank : RerankService)
    (nodes : List NodeWithScore) : Except String (List NodeWithScore) :=
  let afterMetadata :=
    MetadataPostprocessor.postprocess_nodes
      { min_result_size := top_k
        include_tags := include_tags
        exclude_tags := exclude_tags } nodes
  let afterLanguage :=
    LanguageFilterPostprocessor.postprocess_nodes
      { languages := [language, "python"], min_result_size := top_k }
      afterMetadata
  let model :=
    if language == "en" then "rerank-english-v2.0"
    else "rerank-multilingual-v2.0"
  rerank model top_k afterLanguage

/-- Stage A followed by Stage B of the postprocessor chain built by
`Retriever.load_query_engine`: the metadata (tag) postprocessor, then the
language postprocessor with languages `[language, "python"]`, both with
`min_result_size = top_k`. -/
def stagesAB (include_tags exclude_tags : Option (List String))
    (language : String) (top_k : Nat) (nodes : List NodeWithScore) :
    List NodeWithScore :=
  LanguageFilterPostprocessor.postprocess_nodes
    { languages := [language, "python"], min_result_size := top_k }
    (MetadataPostprocessor.postprocess_nodes
      { min_result_size := top_k
        include_tags := include_tags
        exclude_tags := exclude_tags } nodes)

/-- The tail of `Retriever.retrieve` once the fused node list is fixed:
postprocess, project each node to `{text, metadata, score}`, and clear the
stored one-shot flag. A rerank failure propagates and leaves the stored
flag untouched. -/
def Retriever.retrieveFromNodes (state : RetrieverState) (rerank : RerankService)
    (top_k : Nat) (language : String)
    (include_tags exclude_tags : Option (List String))
    (nodes : List NodeWithScore) :
    Except String (List OutputDict × RetrieverState) :=
  match applyNodePostprocessors top_k language include_tags exclude_tags
      rerank nodes with
  | .error e => .error e
  | .ok results =>
    .ok
      (results.map fun node =>
        { text := node.node.text
          metadata := node.node.metadata
          score := node.score },
       { state with is_avoid_query := none })

/-- `Retriever.retrieve`: resolve `top_k` and `language` against the config
defaults, compute the effective avoid flag as
`bool(self.is_avoid_query or is_avoid_query)`, run the hybrid retrieval
with that flag, postprocess, project, and clear the stored flag. The
Python default of the `is_avoid_query` parameter is `False`, i.e.
`some false` here. -/
def Retriever.retrieve (state : RetrieverState) (src : SourceResults)
    (rerank : RerankService) (language : Option String) (top_k : Option Nat)
    (include_tags exclude_tags : Option (List String))
    (is_avoid_query : Option Bool) :
    Except String (List OutputDict × RetrieverState) :=
  let top_k' := pyOrNat top_k state.top_k
  let language' := pyOrStr language state.language
  let avoid_query := pyTruthy state.is_avoid_query || pyTruthy is_avoid_query
  let nodes := HybridRetriever.retrieveNodes src.bm25 src.vector src.web avoid_query
  Retriever.retrieveFromNodes state rerank top_k' language'
    include_tags exclude_tags nodes

/-- `Retriever.__call__`: run `retrieve`, then log `retrievals[0]`, which
raises `IndexError` when the retrieval list is empty. -/
def Retriever.call (state : RetrieverState) (src : SourceResults)
    (rerank : RerankService) (language : Option String) (top_k : Option Nat)
    (include_tags exclude_tags : Option (List String))
    (is_avoid_query : Option Bool) :
    Except String (List OutputDict × RetrieverState) :=
  match Retriever.retrieve state src rerank language top_k include_tags
      exclude_tags is_avoid_query with
  | .error e => .error e
  | .ok (retrievals, state') =>
    if retrievals.isEmpty then
      .error "IndexError: list index out of range"
    else
      .ok (retrievals, state')

/-! ### Spec-side reformulations, used to compare the code against the
specification's own wording -/

/-- The tag retention rule exactly as the specification words it: keep a
candidate iff (the include set is empty OR the include set is a subset of
the candidate's tags) AND (the exclude set is empty OR the exclude set is
NOT a subset of the candidate's tags), under case-insensitive,
whitespace-trimmed tag comparison. -/
def specTagKeep (include_tags exclude_tags : Option (List String))
    (node : NodeWithScore) : Bool :=
  let ctags := node.node.metadata.tags.map normalizeTag
  let inc := (include_tags.getD []).map normalizeTag
  let exc := (exclude_tags.getD []).map normalizeTag
  (inc.isEmpty || inc.all fun t => ctags.contains t) &&
  (exc.isEmpty || !(exc.all fun t => ctags.contains t))

/-- The language policy stage exactly as the specification words it:
partition the input into language matches and the rest preserving order,
and when the matches number fewer than the minimum result size, extend
them with candidates taken from the front of the original pre-filter
list. -/
def specLanguageFilter (languages : List String) (min_result_size : Nat)
    (nodes : List NodeWithScore) : List NodeWithScore :=
  let language_matches :=
    (nodes.partition fun node =>
      languages.contains node.node.metadata.language).fst
  if language_matches.length < min_result_size then
    language_matches ++ nodes.take (min_result_size - language_matches.length)
  else
    language_matches

/-! ### Sample nodes used by the concrete witnesses and counterexamples -/

/-- A lexical-source node with id `"a"` and score 5. -/
def lexNodeA : NodeWithScore :=
  { node :=
      { node_id := "a", text := "lexical text"
        metadata := { language := "en", tags := ["docs"] } }
    score := 5 }

/-- A vector-source node sharing id `"a"` with `lexNodeA` but carrying a
different score and text. -/
def vecNodeA : NodeWithScore :=
  { node :=
      { node_id := "a", text := "vector text"
        metadata := { language := "en", tags := ["docs"] } }
    score := 3 }

/-- A French-language node. -/
def frNode : NodeWithScore :=
  { node :=
      { node_id := "fr1", text := "texte"
        metadata := { language := "fr", tags := [] } }
    score := 2 }

/-- A reranking collaborator that returns the candidate list unchanged
(used to instantiate concrete calls). -/
def idRerank : RerankService :=
  fun _ _ nodes => .ok nodes

/-- Source results for a call where the BM25 and vector retrievers return
nothing and the web call raises a network exception. -/
def emptySources : SourceResults :=
  { bm25 := [], vector := [], web := WebResponse.exn }

/-! ### Properties of the fusion deduplication loop -/

theorem fuseLoop_sublist (l : List NodeWithScore) :
    ∀ seen : List String, (fuseLoop l seen).Sublist l := by
  induction l with
  | nil => intro seen; simp [fuseLoop]
  | cons hd rest ih =>
    intro seen
    simp only [fuseLoop]
    by_cases hm : nodeId hd ∈ seen
    · rw [if_pos hm]
      exact (ih seen).cons hd
    · rw [if_neg hm]
      exact (ih (nodeId hd :: seen)).cons₂ hd

theorem fuseLoop_mem_not_seen (l : List NodeWithScore) :
    ∀ (seen : List String) (n : NodeWithScore),
      n ∈ fuseLoop l seen → nodeId n ∉ seen := by
  induction l with
  | nil => intro seen n h; simp [fuseLoop] at h
  | cons hd rest ih =>
    intro seen n h
    simp only [fuseLoop] at h
    by_cases hm : nodeId hd ∈ seen
    · rw [if_pos hm] at h
      exact ih seen n h
    · rw [if_neg hm] at h
      rcases List.mem_cons.mp h with rfl | h2
      · exact hm
      · have h3 := ih (nodeId hd :: seen) n h2
        intro hc
        exact h3 (List.mem_cons_of_mem _ hc)

theorem fuseLoop_find (l : List NodeWithScore) :
    ∀ (seen : List String) (n : NodeWithScore), n ∈ fuseLoop l seen →
      l.find? (fun m => nodeId m == nodeId n) = some n := by
  induction l with
  | nil => intro seen n h; simp [fuseLoop] at h
  | cons hd rest ih =>
    intro seen n h
    simp only [fuseLoop] at h
    by_cases hm : nodeId hd ∈ seen
    · rw [if_pos hm] at h
      have hne : nodeId n ≠ nodeId hd := fun he =>
        fuseLoop_mem_not_seen rest seen n h (he ▸ hm)
      rw [List.find?_cons_of_neg]
      · exact ih seen n h
      · simp only [beq_iff_eq]
        exact fun he => hne he.symm
    · rw [if_neg hm] at h
      rcases List.mem_cons.mp h with rfl | h2
      · rw [List.find?_cons_of_pos]
        simp
      · have hnotin := fuseLoop_mem_not_seen rest (nodeId hd :: seen) n h2
        have hne : nodeId hd ≠ nodeId n := by
          intro he
          exact hnotin (by rw [← he]; exact List.mem_cons_self _ _)
        rw [List.find?_cons_of_neg]
        · exact ih _ n h2
        · simp [hne]

theorem fuseLoop_complete (l : List NodeWithScore) :
    ∀ (seen : List String) (m : NodeWithScore), m ∈ l → nodeId m ∉ seen →
      ∃ n ∈ fuseLoop l seen, nodeId n = nodeId m := by
  induction l with
  | nil => intro seen m h; simp at h
  | cons hd rest ih =>
    intro seen m hm hs
    simp only [fuseLoop]
    by_cases hh : nodeId hd ∈ seen
    · rw [if_pos hh]
      rcases List.mem_cons.mp hm with rfl | h2
      · exact absurd hh hs
      · exact ih seen m h2 hs
    · rw [if_neg hh]
      by_cases he : nodeId m = nodeId hd
      · exact ⟨hd, List.mem_cons_self _ _, he.symm⟩
      · have h2 : m ∈ rest := by
          rcases List.mem_cons.mp hm with rfl | h2
          · exact absurd rfl he
          · exact h2
        have hs2 : nodeId m ∉ nodeId hd :: seen := by
          intro hc
          rcases List.mem_cons.mp hc with hc | hc
          · exact he hc
          · exact hs hc
        obtain ⟨n, hn, hid⟩ := ih (nodeId hd :: seen) m h2 hs2
        exact ⟨n, List.mem_cons_of_mem _ hn, hid⟩

theorem fuseLoop_nodup (l : List NodeWithScore) :
    ∀ seen : List String, ((fuseLoop l seen).map nodeId).Nodup := by
  induction l with
  | nil => intro seen; simp [fuseLoop]
  | cons hd rest ih =>
    intro seen
    simp only [fuseLoop]
    by_cases hh : nodeId hd ∈ seen
    · rw [if_pos hh]
      exact ih seen
    · rw [if_neg hh]
      simp only [List.map_cons, List.nodup_cons]
      refine ⟨?_, ih _⟩
      intro hc
      obtain ⟨n, hn, hid⟩ := List.mem_map.mp hc
      exact fuseLoop_mem_not_seen rest (nodeId hd :: seen) n hn
        (by rw [hid]; exact List.mem_cons_self _ _)

/-- C1: the fused candidate list is the concatenation of the BM25, vector
and web results in that precedence order, deduplicated by node id with
first occurrence winning: it is a sublist of the concatenation (so the
output order is the post-dedup concatenation order, not re-sorted), its
node ids are pairwise distinct, every id returned by any source is
represented, and each fused entry is literally the first candidate in the
concatenation bearing its id (hence carries the score and text of the
highest-precedence source that returned that id). -/
theorem hybrid_fuse_dedup_spec
    (bm25_nodes vector_nodes you_nodes : List NodeWithScore) :
    (HybridRetriever.fuse bm25_nodes vector_nodes you_nodes).Sublist
        (bm25_nodes ++ vector_nodes ++ you_nodes) ∧
    ((HybridRetriever.fuse bm25_nodes vector_nodes you_nodes).map nodeId).Nodup ∧
    (∀ m ∈ bm25_nodes ++ vector_nodes ++ you_nodes,
      ∃ n ∈ HybridRetriever.fuse bm25_nodes vector_nodes you_nodes,
        nodeId n = nodeId m) ∧
    (∀ n ∈ HybridRetriever.fuse bm25_nodes vector_nodes you_nodes,
      (bm25_nodes ++ vector_nodes ++ you_nodes).find?
          (fun m => nodeId m == nodeId n) = some n) := by
  refine ⟨fuseLoop_sublist _ _, fuseLoop_nodup _ _, ?_, ?_⟩
  · intro m hm
    exact fuseLoop_complete _ [] m hm (by simp)
  · intro n hn
    exact fuseLoop_find _ [] n hn

/-- Witness for C1 at a concrete overlap: the id `"a"` returned by both
the lexical and the vector source is represented in the fused list. -/
theorem hybrid_fuse_dedup_spec_witness :
    ∃ n ∈ HybridRetriever.fuse [lexNodeA] [vecNodeA] [],
      nodeId n = nodeId vecNodeA :=
  (hybrid_fuse_dedup_spec [lexNodeA] [vecNodeA] []).2.2.1 vecNodeA (by simp)

/-- C2 as stated is false: a 200 response whose payload holds 50 hits of
one snippet each makes `YouRetriever._retrieve` yield 50 web-origin
candidates, more than 20 — the `<= 20` cap applies only to the
`num_web_results` request parameter, and the response's hits are all
turned into candidates. -/
theorem you_result_cap_counterexample :
    ¬ ((YouRetriever.retrieveFromResponse
        (WebResponse.response 200
          (some (List.replicate 50
            { url := "u", title := "t", description := "d",
              snippets := ["s"] })))).length ≤ 20) := by
  decide

/-- C2 amended: the retriever caps the `num_web_results` parameter it sends
to the web collaborator at 20 (`similarity_top_k if <= 20 else 20`), but it
does not cap the candidates it builds from the response: it yields exactly
one candidate per snippet across all hits of the response, a total that can
exceed 20 when the response carries more hits, or more snippets per hit,
than requested. -/
theorem you_result_cap_amended_spec (similarity_top_k : Nat)
    (hits : List WebHit) :
    YouRetriever.cappedTopK similarity_top_k ≤ 20 ∧
    (YouRetriever.retrieveFromResponse
        (WebResponse.response 200 (some hits))).length
      = (hits.map fun hit => hit.snippets.length).sum := by
  constructor
  · unfold YouRetriever.cappedTopK
    split
    · assumption
    · exact Nat.le_refl 20
  · simp only [YouRetriever.retrieveFromResponse, bne_self_eq_false,
      Bool.false_eq_true, if_false, List.length_flatten, List.map_map]
    simp [Function.comp_def]

/-- C3: whenever the web call fails (raised exception, non-200 status, or
malformed payload), `YouRetriever._retrieve` returns the empty list, the
fused result equals the fusion of the lexical and vector lists alone, and
every lexical and vector candidate id is still represented in it. -/
theorem you_soft_fail_spec (bm25_nodes vector_nodes : List NodeWithScore)
    (resp : WebResponse) (hfail : resp.isFailure = true) :
    YouRetriever.retrieveFromResponse resp = [] ∧
    HybridRetriever.retrieveNodes bm25_nodes vector_nodes resp false
      = HybridRetriever.fuse bm25_nodes vector_nodes [] ∧
    ∀ m ∈ bm25_nodes ++ vector_nodes,
      ∃ n ∈ HybridRetriever.retrieveNodes bm25_nodes vector_nodes resp false,
        nodeId n = nodeId m := by
  have hempty : YouRetriever.retrieveFromResponse resp = [] := by
    match resp with
    | .exn => rfl
    | .response status_code payload =>
      simp only [WebResponse.isFailure, Bool.or_eq_true, bne_iff_ne,
        Option.isNone_iff_eq_none] at hfail
      rcases hfail with hne | hnone
      · simp [YouRetriever.retrieveFromResponse, hne]
      · subst hnone
        simp [YouRetriever.retrieveFromResponse]
  refine ⟨hempty, ?_, ?_⟩
  · simp [HybridRetriever.retrieveNodes, hempty]
  · intro m hm
    have hm2 : m ∈ bm25_nodes ++ vector_nodes ++ [] := by
      simpa using hm
    simpa [HybridRetriever.retrieveNodes, HybridRetriever.fuse, hempty] using
      fuseLoop_complete (bm25_nodes ++ vector_nodes ++ []) [] m hm2 (by simp)

/-- Witness for C3 at a concrete failing call: a raised network exception
leaves the lexical and vector candidates intact in the fused result. -/
theorem you_soft_fail_spec_witness :
    YouRetriever.retrieveFromResponse WebResponse.exn = [] ∧
    HybridRetriever.retrieveNodes [lexNodeA] [] WebResponse.exn false
      = HybridRetriever.fuse [lexNodeA] [] [] ∧
    ∀ m ∈ [lexNodeA] ++ [],
      ∃ n ∈ HybridRetriever.retrieveNodes [lexNodeA] [] WebResponse.exn false,
        nodeId n = nodeId m :=
  you_soft_fail_spec [lexNodeA] [] WebResponse.exn (by decide)

/-! ### Properties of the two policy postprocessors -/

theorem truthyList_eq_not_isEmpty (o : Option (List String)) :
    truthyList o = !((o.getD []).map normalizeTag).isEmpty := by
  cases o with
  | none => rfl
  | some l => cases l <;> rfl

theorem keepNode_eq_specTagKeep (min_result_size : Nat)
    (include_tags exclude_tags : Option (List String)) (node : NodeWithScore) :
    MetadataPostprocessor.keepNode
        { min_result_size := min_result_size
          include_tags := include_tags
          exclude_tags := exclude_tags } node
      = specTagKeep include_tags exclude_tags node := by
  simp only [MetadataPostprocessor.keepNode, specTagKeep, pySubset,
    truthyList_eq_not_isEmpty, Bool.not_not]

theorem metadata_postprocess_passthrough (self : MetadataPostprocessor)
    (nodes : List NodeWithScore)
    (h : truthyList self.include_tags = false ∧
      truthyList self.exclude_tags = false) :
    self.postprocess_nodes nodes = nodes := by
  simp [MetadataPostprocessor.postprocess_nodes, h.1, h.2]

theorem metadata_postprocess_eq (self : MetadataPostprocessor)
    (nodes : List NodeWithScore)
    (h : (truthyList self.include_tags || truthyList self.exclude_tags) = true) :
    self.postprocess_nodes nodes =
      nodes.filter self.keepNode ++
        List.replicate
          (self.min_result_size - (nodes.filter self.keepNode).length)
          create_no_result_dummy_node := by
  have hcond : (!truthyList self.include_tags &&
      !truthyList self.exclude_tags) = false := by
    rcases Bool.or_eq_true_iff.mp h with h1 | h1 <;> simp [h1]
  simp only [MetadataPostprocessor.postprocess_nodes, hcond,
    Bool.false_eq_true, if_false]
  split
  · rfl
  · next hge =>
    have hz : self.min_result_size - (nodes.filter self.keepNode).length = 0 :=
      Nat.sub_eq_zero_of_le (Nat.le_of_not_lt hge)
    simp [hz]

theorem language_postprocess_length (self : LanguageFilterPostprocessor)
    (nodes : List NodeWithScore) :
    (self.postprocess_nodes nodes).length =
      (nodes.filter fun node =>
          self.languages.contains node.node.metadata.language).length
        + min
            (self.min_result_size -
              (nodes.filter fun node =>
                self.languages.contains node.node.metadata.language).length)
            nodes.length := by
  unfold LanguageFilterPostprocessor.postprocess_nodes
  dsimp only
  split
  · simp [List.length_append, List.length_take]
  · next hge =>
    have hz : self.min_result_size -
        (nodes.filter fun node =>
          self.languages.contains node.node.metadata.language).length = 0 :=
      Nat.sub_eq_zero_of_le (Nat.le_of_not_lt hge)
    rw [hz]
    simp

/-- C4: the tag policy stage retains a candidate exactly under the spec's
predicate — (include empty OR include ⊆ tags) AND (exclude empty OR
exclude ⊄ tags) with case-insensitive, whitespace-trimmed comparison — and
is the identity when both tag lists are empty or unset; otherwise its
output is the spec-predicate filtrate followed by the sentinel padding. -/
theorem metadata_tag_filter_spec (include_tags exclude_tags : Option (List String))
    (min_result_size : Nat) (nodes : List NodeWithScore) :
    (∀ node, MetadataPostprocessor.keepNode
        { min_result_size := min_result_size
          include_tags := include_tags
          exclude_tags := exclude_tags } node
      = specTagKeep include_tags exclude_tags node) ∧
    MetadataPostprocessor.postprocess_nodes
        { min_result_size := min_result_size
          include_tags := include_tags
          exclude_tags := exclude_tags } nodes
      = (if (truthyList include_tags || truthyList exclude_tags) = true then
          nodes.filter (specTagKeep include_tags exclude_tags) ++
            List.replicate
              (min_result_size -
                (nodes.filter (specTagKeep include_tags exclude_tags)).length)
              create_no_result_dummy_node
        else
          nodes) := by
  refine ⟨keepNode_eq_specTagKeep min_result_size include_tags exclude_tags, ?_⟩
  have hfil : nodes.filter
      (MetadataPostprocessor.keepNode
        { min_result_size := min_result_size
          include_tags := include_tags
          exclude_tags := exclude_tags })
      = nodes.filter (specTagKeep include_tags exclude_tags) :=
    List.filter_congr fun node _ =>
      keepNode_eq_specTagKeep min_result_size include_tags exclude_tags node
  by_cases h : (truthyList include_tags || truthyList exclude_tags) = true
  · rw [if_pos h, ← hfil]
    exact metadata_postprocess_eq _ nodes h
  · rw [if_neg h]
    have h2 : truthyList include_tags = false ∧
        truthyList exclude_tags = false := by
      constructor <;>
        [exact Bool.eq_false_iff.mpr fun ht => h (by simp [ht]);
         exact Bool.eq_false_iff.mpr fun ht => h (by simp [ht])]
    exact metadata_postprocess_passthrough _ nodes h2

/-- C5: when at least one tag list is non-empty and fewer than
`min_result_size` candidates survive the tag filter, the stage output is
exactly the survivors, in their original relative order, followed by
sentinel dummy nodes padding the list to exactly `min_result_size`
entries. -/
theorem metadata_padding_spec (include_tags exclude_tags : Option (List String))
    (min_result_size : Nat) (nodes : List NodeWithScore)
    (htags : (truthyList include_tags || truthyList exclude_tags) = true)
    (hlt : (nodes.filter
        (MetadataPostprocessor.keepNode
          { min_result_size := min_result_size
            include_tags := include_tags
            exclude_tags := exclude_tags })).length < min_result_size) :
    MetadataPostprocessor.postprocess_nodes
        { min_result_size := min_result_size
          include_tags := include_tags
          exclude_tags := exclude_tags } nodes
      = nodes.filter
          (MetadataPostprocessor.keepNode
            { min_result_size := min_result_size
              include_tags := include_tags
              exclude_tags := exclude_tags }) ++
        List.replicate
          (min_result_size -
            (nodes.filter
              (MetadataPostprocessor.keepNode
                { min_result_size := min_result_size
                  include_tags := include_tags
                  exclude_tags := exclude_tags })).length)
          create_no_result_dummy_node ∧
    (MetadataPostprocessor.postprocess_nodes
        { min_result_size := min_result_size
          include_tags := include_tags
          exclude_tags := exclude_tags } nodes).length = min_result_size := by
  have heq := metadata_postprocess_eq
    { min_result_size := min_result_size
      include_tags := include_tags
      exclude_tags := exclude_tags } nodes htags
  refine ⟨heq, ?_⟩
  rw [heq]
  simp only [List.length_append, List.length_replicate]
  omega

/-- Witness for C5: with include tag `"docs"`, a single surviving
candidate and minimum size 3, the stage emits the candidate followed by
two sentinel nodes, for exactly 3 entries. -/
theorem metadata_padding_spec_witness :
    MetadataPostprocessor.postprocess_nodes
        { min_result_size := 3
          include_tags := some ["docs"]
          exclude_tags := none } [lexNodeA]
      = [lexNodeA] ++ List.replicate 2 create_no_result_dummy_node ∧
    (MetadataPostprocessor.postprocess_nodes
        { min_result_size := 3
          include_tags := some ["docs"]
          exclude_tags := none } [lexNodeA]).length = 3 := by
  have h := metadata_padding_spec (some ["docs"]) none 3 [lexNodeA]
    (by decide) (by decide)
  refine ⟨?_, h.2⟩
  rw [h.1]
  decide

/-- C6: the language policy stage returns the candidates whose language is
acceptable, in original relative order (the first partition block of the
spec's wording), extended — when they number fewer than the minimum — with
candidates taken from the front of the original pre-filter list until the
minimum is reached or the original list is exhausted; on a one-element
French list with minimum 2 this duplicates the already-matched
candidate. -/
theorem language_filter_spec (languages : List String) (min_result_size : Nat)
    (nodes : List NodeWithScore) :
    LanguageFilterPostprocessor.postprocess_nodes
        { languages := languages, min_result_size := min_result_size } nodes
      = specLanguageFilter languages min_result_size nodes ∧
    (LanguageFilterPostprocessor.postprocess_nodes
        { languages := languages, min_result_size := min_result_size } nodes).length
      = (nodes.filter fun node =>
            languages.contains node.node.metadata.language).length
        + min
            (min_result_size -
              (nodes.filter fun node =>
                languages.contains node.node.metadata.language).length)
            nodes.length ∧
    LanguageFilterPostprocessor.postprocess_nodes
        { languages := ["fr", "python"], min_result_size := 2 } [frNode]
      = [frNode, frNode] := by
  refine ⟨?_, language_postprocess_length _ nodes, by rfl⟩
  simp only [LanguageFilterPostprocessor.postprocess_nodes, specLanguageFilter,
    List.partition_eq_filter_filter]

/-! ### Stage A + Stage B composition and the session-level behavior -/

theorem language_postprocess_length_of_le (self : LanguageFilterPostprocessor)
    (nodes : List NodeWithScore) (h : self.min_result_size ≤ nodes.length) :
    (self.postprocess_nodes nodes).length =
      max
        (nodes.filter fun node =>
          self.languages.contains node.node.metadata.language).length
        self.min_result_size := by
  rw [language_postprocess_length]
  have hf := List.length_filter_le
    (fun node => self.languages.contains node.node.metadata.language) nodes
  omega

/-- C7 as stated is false: with both tag sets unset, Stage A is a
passthrough (no sentinel padding), and Stage B can only pad from the
original — here empty — list, so the composed output has 0 entries
instead of the requested 10. -/
theorem stages_exact_size_counterexample :
    ¬ ((stagesAB none none "en" 10 []).length = 10) := by
  decide

/-- C7 amended: the Stage A + Stage B output has exactly `top_k` entries
provided at least one tag set is non-empty (so Stage A pads with
sentinels) and at most `top_k` candidates survive the tag filter; with
both tag sets empty or unset the output can fall short of `top_k`. -/
theorem stages_exact_size_amended_spec
    (include_tags exclude_tags : Option (List String)) (language : String)
    (top_k : Nat) (nodes : List NodeWithScore)
    (htags : (truthyList include_tags || truthyList exclude_tags) = true)
    (hle : (nodes.filter
        (MetadataPostprocessor.keepNode
          { min_result_size := top_k
            include_tags := include_tags
            exclude_tags := exclude_tags })).length ≤ top_k) :
    (stagesAB include_tags exclude_tags language top_k nodes).length = top_k := by
  have hA := metadata_postprocess_eq
    { min_result_size := top_k
      include_tags := include_tags
      exclude_tags := exclude_tags } nodes htags
  have hAlen : (MetadataPostprocessor.postprocess_nodes
      { min_result_size := top_k
        include_tags := include_tags
        exclude_tags := exclude_tags } nodes).length = top_k := by
    rw [hA]
    simp only [List.length_append, List.length_replicate]
    omega
  unfold stagesAB
  rw [language_postprocess_length_of_le _ _ (by rw [hAlen])]
  dsimp only
  have hf := List.length_filter_le
    (fun node => ([language, "python"]).contains node.node.metadata.language)
    (MetadataPostprocessor.postprocess_nodes
      { min_result_size := top_k
        include_tags := include_tags
        exclude_tags := exclude_tags } nodes)
  rw [hAlen] at hf
  omega

/-- Witness for the amended C7: a non-empty include set and an empty fused
list still produce exactly 3 entries after Stage A + Stage B. -/
theorem stages_exact_size_amended_witness :
    (stagesAB (some ["x"]) none "en" 3 []).length = 3 :=
  stages_exact_size_amended_spec (some ["x"]) none "en" 3 []
    (by decide) (by decide)

theorem retrieve_avoid_resolution (state : RetrieverState) (src : SourceResults)
    (rerank : RerankService) (language : Option String) (top_k : Option Nat)
    (include_tags exclude_tags : Option (List String))
    (is_avoid_query : Option Bool) :
    Retriever.retrieve state src rerank language top_k include_tags
        exclude_tags is_avoid_query
      = Retriever.retrieveFromNodes state rerank (pyOrNat top_k state.top_k)
          (pyOrStr language state.language) include_tags exclude_tags
          (HybridRetriever.fuse src.bm25 src.vector
            (if state.is_avoid_query = some true ∨ is_avoid_query = some true
             then []
             else YouRetriever.retrieveFromResponse src.web)) := by
  have hyou : (if !(pyTruthy state.is_avoid_query || pyTruthy is_avoid_query)
        then YouRetriever.retrieveFromResponse src.web else [])
      = (if state.is_avoid_query = some true ∨ is_avoid_query = some true
        then []
        else YouRetriever.retrieveFromResponse src.web) := by
    match state.is_avoid_query, is_avoid_query with
    | none, none => simp [pyTruthy]
    | none, some c => cases c <;> simp [pyTruthy]
    | some b, none => cases b <;> simp [pyTruthy]
    | some b, some c => cases b <;> cases c <;> simp [pyTruthy]
  unfold Retriever.retrieve HybridRetriever.retrieveNodes
  dsimp only
  rw [hyou]

/-- C8: the web source is suppressed if and only if the stored one-shot
flag or the call's explicit flag is `True` (logical OR over the two
tri-state values): `retrieve` always equals its postprocessing tail
applied to the fusion of the BM25 and vector nodes with a web
contribution that is empty exactly when
`state.is_avoid_query = some true ∨ is_avoid_query = some true`. -/
theorem avoid_flag_or_spec (state : RetrieverState) (src : SourceResults)
    (rerank : RerankService) (language : Option String) (top_k : Option Nat)
    (include_tags exclude_tags : Option (List String))
    (is_avoid_query : Option Bool) :
    Retriever.retrieve state src rerank language top_k include_tags
        exclude_tags is_avoid_query
      = Retriever.retrieveFromNodes state rerank (pyOrNat top_k state.top_k)
          (pyOrStr language state.language) include_tags exclude_tags
          (HybridRetriever.fuse src.bm25 src.vector
            (if state.is_avoid_query = some true ∨ is_avoid_query = some true
             then []
             else YouRetriever.retrieveFromResponse src.web)) :=
  retrieve_avoid_resolution state src rerank language top_k include_tags
    exclude_tags is_avoid_query

/-- C9: every completed `retrieve` call leaves the stored one-shot flag
cleared (`None`), whatever its arguments were; a subsequent call with the
default explicit flag (`False`) therefore does not suppress the web
source — its fused list includes the web contribution. -/
theorem one_shot_flag_cleared_spec (state : RetrieverState)
    (src : SourceResults) (rerank : RerankService) (language : Option String)
    (top_k : Option Nat) (include_tags exclude_tags : Option (List String))
    (is_avoid_query : Option Bool) (outputs : List OutputDict)
    (state' : RetrieverState)
    (h : Retriever.retrieve state src rerank language top_k include_tags
        exclude_tags is_avoid_query = .ok (outputs, state')) :
    state'.is_avoid_query = none ∧
    ∀ (src2 : SourceResults) (rerank2 : RerankService)
      (language2 : Option String) (top_k2 : Option Nat)
      (include_tags2 exclude_tags2 : Option (List String)),
      Retriever.retrieve state' src2 rerank2 language2 top_k2 include_tags2
          exclude_tags2 (some false)
        = Retriever.retrieveFromNodes state' rerank2
            (pyOrNat top_k2 state'.top_k) (pyOrStr language2 state'.language)
            include_tags2 exclude_tags2
            (HybridRetriever.fuse src2.bm25 src2.vector
              (YouRetriever.retrieveFromResponse src2.web)) := by
  have hnone : state'.is_avoid_query = none := by
    unfold Retriever.retrieve Retriever.retrieveFromNodes at h
    dsimp only at h
    split at h
    · exact Except.noConfusion h
    · cases h
      rfl
  refine ⟨hnone, ?_⟩
  intro src2 rerank2 language2 top_k2 include_tags2 exclude_tags2
  rw [retrieve_avoid_resolution]
  rw [if_neg]
  rw [hnone]
  simp

/-- Witness for C9: after a call made with the stored flag set, the state
holds `None` and a follow-up call with the default flag reaches the web
source. -/
theorem one_shot_flag_cleared_spec_witness :
    (({ is_avoid_query := none, top_k := 10, language := "en" } :
        RetrieverState).is_avoid_query = none) ∧
    Retriever.retrieve
        { is_avoid_query := none, top_k := 10, language := "en" }
        emptySources idRerank none none none none (some false)
      = Retriever.retrieveFromNodes
          { is_avoid_query := none, top_k := 10, language := "en" }
          idRerank 10 "en" none none
          (HybridRetriever.fuse [] []
            (YouRetriever.retrieveFromResponse WebResponse.exn)) := by
  have h := one_shot_flag_cleared_spec
    { is_avoid_query := some true, top_k := 10, language := "en" }
    emptySources idRerank none none none none none []
    { is_avoid_query := none, top_k := 10, language := "en" } rfl
  exact ⟨h.1, h.2 emptySources idRerank none none none none⟩

/-- C10: on a call whose pipeline yields no candidates (empty index
results and a failed-soft web call), `retrieve` returns the empty list
without error, but `__call__` fails: its debug log indexes
`retrievals[0]`, which is out of bounds on the empty list. -/
theorem call_empty_retrieval_fails :
    Retriever.retrieve
        { is_avoid_query := none, top_k := 10, language := "en" }
        emptySources idRerank none none none none (some false)
      = .ok ([], { is_avoid_query := none, top_k := 10, language := "en" }) ∧
    Retriever.call
        { is_avoid_query := none, top_k := 10, language := "en" }
        emptySources idRerank none none none none (some false)
      = .error "IndexError: list index out of range" :=
  ⟨rfl, rfl⟩

end Wandbot
